import Mathlib

/-!
Verification of the SDO image collector script (`SDO_images_collector.py`).

The script is embedded shallowly:

* Python strings are `List Char` (named `Str` below); string literals are
  converted with `pystr`.
* `str.split(sep)` for a one-character separator is `List.splitOn`;
  `str.split()` (whitespace split, dropping empty fields) is `pySplit`;
  `sub in s` is `pyContainsSub`; one-character `str.replace` is a `List.map`.
* HTTP traffic (`requests.get`), the HTML parser (`BeautifulSoup`) and the
  filesystem write outcome are oracles bundled in an `Env`; the filesystem's
  set of existing directories is a `List Str` threaded through the state.
* A Python exception that the script does not catch is modelled as
  `Except.error` of a `PyError`; functions whose exceptions are all caught
  in the source return plain values.
* Log output is modelled as a list of `LogEntry` values recording the level
  and the data interpolated into the message.
-/

/-- Python strings, as lists of characters. -/
abbrev Str := List Char

/-- Convert a Lean string literal to the `Str` model. -/
def pystr (s : String) : Str := s.toList

instance {ε α : Type} [DecidableEq ε] [DecidableEq α] : DecidableEq (Except ε α) :=
  fun x y =>
    match x, y with
    | .error a, .error b =>
      if h : a = b then .isTrue (by rw [h])
      else .isFalse (fun hh => h (Except.error.inj hh))
    | .ok a, .ok b =>
      if h : a = b then .isTrue (by rw [h])
      else .isFalse (fun hh => h (Except.ok.inj hh))
    | .error _, .ok _ => .isFalse (fun hh => Except.noConfusion hh)
    | .ok _, .error _ => .isFalse (fun hh => Except.noConfusion hh)

/-- Uncaught Python exception kinds relevant to this script. -/
inductive PyError where
  | attributeError
  | indexError
  | typeError
  | fileExistsError
  deriving DecidableEq, Repr

/-- Log levels used by the script (`logging.info` / `logging.error`). -/
inductive LogLevel where
  | info
  | error
  deriving DecidableEq, Repr

/-- One emitted log record: the constructor identifies the message template,
the payload the data interpolated into it. -/
inductive LogEntry where
  | errorFetchHtml (url : Str)
  | errorFetchImage (url : Str)
  | errorSavingImage (path : Str)
  | infoImageSaved (path : Str)
  | infoCreatedFolder (path : Str)
  | errorMissingParams
  | infoNoImagesFound
  | infoExecutionCompleted
  deriving DecidableEq, Repr

/-- The level of a log record. -/
def LogEntry.level : LogEntry → LogLevel
  | .errorFetchHtml _ => .error
  | .errorFetchImage _ => .error
  | .errorSavingImage _ => .error
  | .infoImageSaved _ => .info
  | .infoCreatedFolder _ => .info
  | .errorMissingParams => .error
  | .infoNoImagesFound => .info
  | .infoExecutionCompleted => .info

/-- Python `sub in s` (contiguous substring test): `sub` is a prefix of some
suffix of `s`. -/
def pyContainsSub (needle : Str) : Str → Bool
  | [] => needle.isPrefixOf []
  | c :: t => needle.isPrefixOf (c :: t) || pyContainsSub needle t

/-- Accumulator-style worker for Python's whitespace `str.split()`:
`acc` holds the characters of the token currently being read, reversed. -/
def pySplitAux : List Char → List Char → List Str
  | [], acc => if acc.isEmpty then [] else [acc.reverse]
  | c :: cs, acc =>
    if c.isWhitespace then
      if acc.isEmpty then pySplitAux cs [] else acc.reverse :: pySplitAux cs []
    else pySplitAux cs (c :: acc)

/-- Python `str.split()` with no argument: split on runs of whitespace,
discarding empty fields. -/
def pySplit (s : Str) : List Str := pySplitAux s []

/-- POSIX `os.path.join` for two components. -/
def pathJoin (a b : Str) : Str :=
  if b.head? = some '/' then b
  else if a = [] ∨ a.getLast? = some '/' then a ++ b
  else a ++ '/' :: b

/-- The outcome `requests.get(url)` can have: a response with a status code
and body, or a raised `requests.RequestException` (connection error etc.). -/
inductive NetResult where
  | response (status : Nat) (body : Str)
  | transportError

/-- The parsed view BeautifulSoup offers of an HTML document: the textual
contents of its `pre` elements, in document order (`soup.find "pre"` returns
the first one, or `None` when the list is empty). -/
structure Soup where
  preBlocks : List Str

/-- The external world the script interacts with: the network, the HTML
parser, and whether opening/writing a given file path succeeds. -/
structure Env where
  net : Str → NetResult
  parse : Str → Soup
  writeOk : Str → Bool

/-- `response.raise_for_status()` raises for 4xx and 5xx status codes. -/
def is_error_status (s : Nat) : Bool := decide (400 ≤ s) && decide (s < 600)

/-- `fetch_html_content`: GET the url; on success return the body text, and
on `requests.RequestException` (transport failure, or the `HTTPError` from
`raise_for_status`) log an error and return `None`.  The pair's second
component is the log output; the total return type (no `Except`) reflects
that every `RequestException` is caught. -/
def fetch_html_content (net : Str → NetResult) (url : Str) :
    Option Str × List LogEntry :=
  match net url with
  | .response s b =>
    if is_error_status s then (none, [.errorFetchHtml url])
    else (some b, [])
  | .transportError => (none, [.errorFetchHtml url])

/-- The line filter of `extract_image_names`:
`date_time in line and line.split(".")[0].split("_")[-1] in type_images`.
(`split` never returns an empty list, so the `[0]` and `[-1]` indexings are
total; `headD`/`getLastD` with an irrelevant default render them.) -/
def line_matches (type_images : List Str) (date_time line : Str) : Bool :=
  pyContainsSub date_time line &&
    type_images.contains ((((line.splitOn '.').headD []).splitOn '_').getLastD [])

/-- `line.split()[0]`: the first whitespace-delimited token of a line;
raises `IndexError` when the line is pure whitespace. -/
def first_column (line : Str) : Except PyError Str :=
  match pySplit line with
  | [] => .error .indexError
  | t :: _ => .ok t

/-- Left-to-right effectful map over a list in the `Except` monad, mirroring
a Python list comprehension: the first raised exception propagates. -/
def mapExcept (f : α → Except ε β) : List α → Except ε (List β)
  | [] => .ok []
  | a :: l =>
    match f a with
    | .error e => .error e
    | .ok b =>
      match mapExcept f l with
      | .error e => .error e
      | .ok bs => .ok (b :: bs)

/-- `extract_image_names`: parse the HTML, take the text of the first `pre`
element (`AttributeError` on `None` when there is none), split it into lines
on `'\n'`, and return the first column of every line that passes
`line_matches`, in document order. -/
def extract_image_names (parse : Str → Soup) (html_content : Str)
    (type_images : List Str) (date_time : Str) : Except PyError (List Str) :=
  match (parse html_content).preBlocks.head? with
  | none => .error .attributeError
  | some preText =>
    mapExcept first_column
      ((preText.splitOn '\n').filter (line_matches type_images date_time))

/-- `BASE_IMAGE_DIR = "images/imagesSDO"`. -/
def BASE_IMAGE_DIR : Str := pystr "images/imagesSDO"

/-- `os.makedirs(p)`: raises `FileExistsError` when `p` already exists,
otherwise records the directory as existing. -/
def makedirs (fs : List Str) (p : Str) : Except PyError (List Str) :=
  if p ∈ fs then .error .fileExistsError else .ok (p :: fs)

/-- `create_folder_if_not_exists`: create the folder (and log) only when
`os.path.exists` is false.  `fs` is the set of existing directories. -/
def create_folder_if_not_exists (fs : List Str) (folder_path : Str) :
    Except PyError (List Str × List LogEntry) :=
  if folder_path ∈ fs then .ok (fs, [])
  else
    match makedirs fs folder_path with
    | .error e => .error e
    | .ok fs' => .ok (fs', [.infoCreatedFolder folder_path])

/-- Observable state of one program run: existing directories, files written
(path and content), URLs for which a GET was issued, log output, and whether
`download_images` was ever entered. -/
structure PipeState where
  fs : List Str
  files : List (Str × Str)
  attempts : List Str
  logs : List LogEntry
  invoked : Bool
  deriving DecidableEq, Repr

/-- The empty starting state. -/
def initState : PipeState := ⟨[], [], [], [], false⟩

/-- `download_image`: GET the url and write the body to `file_path`;
`requests.RequestException` and `IOError` are both caught and logged, so the
function is total.  The GET is always attempted; the file is written only on
a 2xx/3xx response with a successful open. -/
def download_image (env : Env) (url file_path : Str) (st : PipeState) :
    PipeState :=
  match env.net url with
  | .transportError =>
    { st with attempts := st.attempts ++ [url],
              logs := st.logs ++ [.errorFetchImage url] }
  | .response s b =>
    if is_error_status s then
      { st with attempts := st.attempts ++ [url],
                logs := st.logs ++ [.errorFetchImage url] }
    else if env.writeOk file_path then
      { st with attempts := st.attempts ++ [url],
                files := st.files ++ [(file_path, b)],
                logs := st.logs ++ [.infoImageSaved file_path] }
    else
      { st with attempts := st.attempts ++ [url],
                logs := st.logs ++ [.errorSavingImage file_path] }

/-- The loosely-typed parameter dictionary handed to `download_images`;
each `.get` lookup yields an `Option` (`image_names` has default `[]`). -/
structure Params where
  url_base : Option Str
  image_names : Option (List Str)
  base_folder : Option Str
  folder_name : Option Str
  subfolder_name : Option Str

/-- `download_images`.  Note the faithful order of operations: the
three-way `os.path.join` runs *before* the `if not all([...])` guard, so a
missing `base_folder`, `folder_name` or `subfolder_name` raises `TypeError`
(`os.path.join` on `None`) instead of reaching the guard.  The guard itself
checks Python truthiness of `url_base`, `image_names` and the joined
`folder_path`. -/
def download_images (env : Env) (st : PipeState) (params : Params) :
    Except PyError PipeState :=
  let url_base := params.url_base
  let image_names := params.image_names.getD []
  match params.base_folder, params.folder_name, params.subfolder_name with
  | some b, some f, some sf =>
    let folder_path := pathJoin (pathJoin b f) sf
    if url_base.getD [] = [] ∨ image_names = [] ∨ folder_path = [] then
      .ok { st with logs := st.logs ++ [.errorMissingParams] }
    else
      match create_folder_if_not_exists st.fs folder_path with
      | .error e => .error e
      | .ok (fs', lg) =>
        .ok (image_names.foldl
          (fun s name =>
            download_image env (url_base.getD [] ++ '/' :: name)
              (pathJoin folder_path name) s)
          { st with fs := fs', logs := st.logs ++ lg })
  | _, _, _ => .error .typeError

/-- `date_time.split()[0].replace("-", "/")` appended to the fixed browse
URL. -/
def url_base_of_date (date_part : Str) : Str :=
  pystr "https://sdo.gsfc.nasa.gov/assets/img/browse/" ++
    date_part.map (fun c => if c = '-' then '/' else c)

/-- The parameter dictionary `main` builds (lines 116-122): folder name is
`date_time.split()[0]`, subfolder `date_time.split()[1].replace(":", "-")`;
the `[1]` indexing raises `IndexError` when the timestamp has fewer than two
whitespace-separated fields. -/
def main_download_params (url_base : Str) (names : List Str)
    (date_time : Str) : Except PyError Params :=
  match pySplit date_time with
  | d :: t :: _ =>
    .ok ⟨some url_base, some names, some BASE_IMAGE_DIR, some d,
         some (t.map (fun c => if c = ':' then '-' else c))⟩
  | _ => .error .indexError

/-- `main` (renamed: Lean reserves the name), from the derivation of the browse URL on (the interactive
prompts become the `image_types` and `date_time` arguments).  Faithful
control flow: an absent *or empty* HTML body ends the run silently (the
fetch already logged any error); an empty extraction logs "No images found"
and ends the run before `download_images`; otherwise the downloader runs
and "Execution completed" is logged. -/
def main' (env : Env) (image_types : List Str) (date_time : Str) :
    Except PyError PipeState :=
  match pySplit date_time with
  | [] => .error .indexError
  | date_part :: _ =>
    let url_base := url_base_of_date date_part
    let (html, lg1) := fetch_html_content env.net url_base
    let st0 : PipeState := ⟨[], [], [], lg1, false⟩
    match html with
    | none => .ok st0
    | some content =>
      if content = [] then .ok st0
      else
        match extract_image_names env.parse content image_types date_time with
        | .error e => .error e
        | .ok names =>
          if names = [] then
            .ok { st0 with logs := st0.logs ++ [.infoNoImagesFound] }
          else
            match main_download_params url_base names date_time with
            | .error e => .error e
            | .ok params =>
              match download_images env { st0 with invoked := true } params with
              | .error e => .error e
              | .ok st' =>
                .ok { st' with logs := st'.logs ++ [.infoExecutionCompleted] }

/-- The line filter as the specification words it: the line contains the
requested timestamp as a literal substring, and the type token — the line's
text split on `'.'` to drop the extension, then on `'_'` taking the last
segment — is one of the requested type tokens. -/
def spec_line_matches (type_images : List Str) (date_time line : Str) : Bool :=
  pyContainsSub date_time line &&
    type_images.contains ((((line.splitOn '.').headD []).splitOn '_').getLastD [])

/-- The extractor's result as the specification words it: the ordered
sequence of first-column filenames of the lines passing both filters,
preserving document order. -/
def spec_selected_names (lines : List Str) (type_images : List Str)
    (date_time : Str) : List Str :=
  (lines.filter (spec_line_matches type_images date_time)).map
    (fun l => (pySplit l).headD [])

/-- Whether the download of one image fails in environment `env`: the GET
raises, the status is 4xx/5xx, or the file cannot be written. -/
def download_failed (env : Env) (url file_path : Str) : Bool :=
  match env.net url with
  | .transportError => true
  | .response s _ => is_error_status s || !env.writeOk file_path

/-! ### Helper lemmas -/

theorem mapExcept_ok {f : α → Except ε β} {g : α → β} :
    ∀ {l : List α}, (∀ a ∈ l, f a = .ok (g a)) →
      mapExcept f l = .ok (l.map g)
  | [], _ => rfl
  | a :: l, h => by
    have ha := h a (List.mem_cons_self a l)
    have ih := mapExcept_ok (f := f) (g := g) (l := l)
      (fun x hx => h x (List.mem_cons_of_mem a hx))
    simp [mapExcept, ha, ih]

theorem mapExcept_error {f : α → Except ε β} :
    ∀ {l : List α} {e : ε}, mapExcept f l = .error e → ∃ a ∈ l, f a = .error e
  | [], e, h => by simp [mapExcept] at h
  | a :: l, e, h => by
    dsimp [mapExcept] at h
    cases hfa : f a with
    | error e' =>
      rw [hfa] at h
      exact ⟨a, List.mem_cons_self a l, by rw [hfa, Except.error.inj h]⟩
    | ok b =>
      rw [hfa] at h
      cases hml : mapExcept f l with
      | error e' =>
        rw [hml] at h
        obtain ⟨x, hx, hfx⟩ := mapExcept_error (l := l) hml
        exact ⟨x, List.mem_cons_of_mem a hx,
          by rw [hfx, Except.error.inj h]⟩
      | ok bs => rw [hml] at h; exact absurd h (by simp)

theorem first_column_error {line : Str} {e : PyError}
    (h : first_column line = .error e) : e = .indexError := by
  unfold first_column at h
  cases hs : pySplit line with
  | nil => rw [hs] at h; exact (Except.error.inj h).symm
  | cons t ts => rw [hs] at h; exact absurd h (by simp)

theorem mapExcept_ne_error_attributeError {l : List Str} :
    mapExcept first_column l ≠ .error .attributeError := by
  intro h
  obtain ⟨a, _, hfa⟩ := mapExcept_error h
  exact absurd (first_column_error hfa) (by decide)

/-! ### Claim theorems -/

/-- C5: for HTML content with no preformatted block,
`extract_image_names` raises the structural-parse fault (`AttributeError`
from calling `get_text` on `None`); when a preformatted block is present,
that fault is never raised. -/
theorem extract_image_names_pre_fault (parse : Str → Soup) (html : Str)
    (types : List Str) (dt : Str) :
    ((parse html).preBlocks = [] →
      extract_image_names parse html types dt = .error .attributeError) ∧
    ((parse html).preBlocks ≠ [] →
      extract_image_names parse html types dt ≠ .error .attributeError) := by
  constructor
  · intro h
    unfold extract_image_names
    rw [h]
    rfl
  · intro h
    unfold extract_image_names
    cases hp : (parse html).preBlocks with
    | nil => exact absurd hp h
    | cons p ps =>
      simp only [List.head?]
      exact mapExcept_ne_error_attributeError

theorem extract_image_names_pre_fault_witness :
    extract_image_names (fun _ => ⟨[]⟩) (pystr "<html></html>") [] (pystr "t")
        = .error .attributeError ∧
      extract_image_names (fun _ => ⟨[pystr "a.jpg"]⟩) (pystr "<pre>a.jpg</pre>")
        [] (pystr "t") ≠ .error .attributeError :=
  ⟨(extract_image_names_pre_fault (fun _ => ⟨[]⟩) (pystr "<html></html>") []
      (pystr "t")).1 rfl,
   (extract_image_names_pre_fault (fun _ => ⟨[pystr "a.jpg"]⟩)
      (pystr "<pre>a.jpg</pre>") [] (pystr "t")).2 (by decide)⟩

/-- C3: `fetch_html_content` returns the raw body on an HTTP success, and on
a transport failure or a 4xx/5xx status it returns `None` together with an
error-level log record; its total return type carries no exception to the
caller. -/
theorem fetch_html_content_contract (net : Str → NetResult) (url : Str) :
    (∀ s b, net url = .response s b → is_error_status s = false →
      fetch_html_content net url = (some b, [])) ∧
    (∀ s b, net url = .response s b → is_error_status s = true →
      fetch_html_content net url = (none, [.errorFetchHtml url]) ∧
        (LogEntry.errorFetchHtml url).level = .error) ∧
    (net url = .transportError →
      fetch_html_content net url = (none, [.errorFetchHtml url]) ∧
        (LogEntry.errorFetchHtml url).level = .error) := by
  refine ⟨?_, ?_, ?_⟩
  · intro s b hn hs
    simp [fetch_html_content, hn, hs]
  · intro s b hn hs
    exact ⟨by simp [fetch_html_content, hn, hs], rfl⟩
  · intro hn
    exact ⟨by simp [fetch_html_content, hn], rfl⟩

theorem fetch_html_content_contract_witness :
    fetch_html_content (fun _ => .response 200 (pystr "<html>"))
        (pystr "http://a") = (some (pystr "<html>"), []) ∧
      fetch_html_content (fun _ => .response 500 []) (pystr "http://a") =
        (none, [.errorFetchHtml (pystr "http://a")]) ∧
      fetch_html_content (fun _ => .transportError) (pystr "http://a") =
        (none, [.errorFetchHtml (pystr "http://a")]) :=
  ⟨(fetch_html_content_contract (fun _ => .response 200 (pystr "<html>"))
      (pystr "http://a")).1 200 (pystr "<html>") rfl (by decide),
   ((fetch_html_content_contract (fun _ => .response 500 [])
      (pystr "http://a")).2.1 500 [] rfl (by decide)).1,
   ((fetch_html_content_contract (fun _ => .transportError)
      (pystr "http://a")).2.2 rfl).1⟩

/-- C6: `create_folder_if_not_exists` is idempotent: after a successful
first call, a second call with the same path succeeds, leaves the directory
set unchanged, logs nothing, and the path exists. -/
theorem create_folder_if_not_exists_idempotent (fs : List Str) (p : Str)
    (fs1 : List Str) (lg1 : List LogEntry)
    (h : create_folder_if_not_exists fs p = .ok (fs1, lg1)) :
    create_folder_if_not_exists fs1 p = .ok (fs1, []) ∧ p ∈ fs1 := by
  by_cases hp : p ∈ fs
  · simp only [create_folder_if_not_exists, if_pos hp] at h
    obtain ⟨rfl, -⟩ : fs = fs1 ∧ lg1 = lg1 :=
      ⟨congrArg Prod.fst (Except.ok.inj h), rfl⟩
    exact ⟨by simp [create_folder_if_not_exists, hp], hp⟩
  · simp only [create_folder_if_not_exists, if_neg hp, makedirs] at h
    have hfs1 : p :: fs = fs1 := congrArg Prod.fst (Except.ok.inj h)
    subst hfs1
    have hmem : p ∈ p :: fs := List.mem_cons_self p fs
    exact ⟨by simp [create_folder_if_not_exists, hmem], hmem⟩

theorem create_folder_if_not_exists_idempotent_witness :
    create_folder_if_not_exists [pystr "images/imagesSDO/2024-08-02/01-10"]
        (pystr "images/imagesSDO/2024-08-02/01-10") =
      .ok ([pystr "images/imagesSDO/2024-08-02/01-10"], []) ∧
    pystr "images/imagesSDO/2024-08-02/01-10" ∈
      [pystr "images/imagesSDO/2024-08-02/01-10"] :=
  create_folder_if_not_exists_idempotent []
    (pystr "images/imagesSDO/2024-08-02/01-10")
    [pystr "images/imagesSDO/2024-08-02/01-10"]
    [.infoCreatedFolder (pystr "images/imagesSDO/2024-08-02/01-10")]
    (by decide)

/-- C4: on a parameter dictionary with no `folder_name` entry the code does
NOT log-and-return: `os.path.join` is applied to the `None` from
`params.get("folder_name")` before the `if not all([...])` guard runs, so an
uncaught `TypeError` is raised (zero downloads are attempted, but the
logged-error-and-clean-return the claim describes never happens). -/
theorem download_images_missing_folder_name :
    download_images
      ⟨fun _ => .response 200 [], fun _ => ⟨[]⟩, fun _ => true⟩ initState
      ⟨some (pystr "http://u"), some [pystr "a.jpg"], some BASE_IMAGE_DIR,
        none, some (pystr "01-10")⟩ = .error .typeError := by
  rfl

/-- C2 counterexample: with filter set `{"HMIIC"}` and timestamp
`"2024-08-02 01:10"`, the listing line `"HMIIC_2024-08-02 01:10.jpg extra"`
is NOT selected (the claim says it is): the code's type token is the *last*
underscore segment of the text before the first dot, which here is
`"2024-08-02 01:10"`, not the leading `"HMIIC"`. -/
theorem extract_image_names_hmiic_first_not_selected :
    extract_image_names
      (fun _ => ⟨[pystr "HMIIC_2024-08-02 01:10.jpg extra"]⟩)
      (pystr "<listing>") [pystr "HMIIC"] (pystr "2024-08-02 01:10") =
      .ok [] := by
  decide

/-- C2 amended: with filter set `{"HMIIC"}` and timestamp
`"2024-08-02 01:10"`, a line whose filename carries the type token as its
last underscore segment, `"20240802_0110_HMIIC.jpg 2024-08-02 01:10"`, is
selected with filename `"20240802_0110_HMIIC.jpg"`; the otherwise identical
HMIIF line is excluded; and on the claim's original line the computed type
token is `"2024-08-02 01:10"`, which is why that line is excluded. -/
theorem extract_image_names_type_token_examples :
    extract_image_names
        (fun _ => ⟨[pystr "20240802_0110_HMIIC.jpg 2024-08-02 01:10"]⟩)
        (pystr "<listing>") [pystr "HMIIC"] (pystr "2024-08-02 01:10") =
      .ok [pystr "20240802_0110_HMIIC.jpg"] ∧
    extract_image_names
        (fun _ => ⟨[pystr "20240802_0110_HMIIF.jpg 2024-08-02 01:10"]⟩)
        (pystr "<listing>") [pystr "HMIIC"] (pystr "2024-08-02 01:10") =
      .ok [] ∧
    ((((pystr "HMIIC_2024-08-02 01:10.jpg extra").splitOn '.').headD
        []).splitOn '_').getLastD [] = pystr "2024-08-02 01:10" := by
  refine ⟨by decide, by decide, by decide⟩

theorem pyContainsSub_mem {needle : Str} {c : Char} (hc : c ∈ needle) :
    ∀ {hay : Str}, pyContainsSub needle hay = true → c ∈ hay
  | [], h => by
    unfold pyContainsSub at h
    cases hn : needle with
    | nil => rw [hn] at hc; cases hc
    | cons x xs => rw [hn] at h; cases h
  | a :: t, h => by
    unfold pyContainsSub at h
    rcases Bool.or_eq_true_iff.mp h with h1 | h2
    · exact (List.isPrefixOf_iff_prefix.mp h1).subset hc
    · exact List.mem_cons_of_mem a (pyContainsSub_mem hc h2)

theorem pySplitAux_ne_nil {acc : List Char} (hacc : acc ≠ []) :
    ∀ {l : List Char}, pySplitAux l acc ≠ []
  | [] => by
    unfold pySplitAux
    rw [if_neg (by simpa using hacc)]
    simp
  | c :: cs => by
    unfold pySplitAux
    by_cases hw : c.isWhitespace
    · rw [if_pos hw, if_neg (by simpa using hacc)]
      simp
    · rw [if_neg hw]
      exact pySplitAux_ne_nil (List.cons_ne_nil c acc)

theorem pySplitAux_eq_nil_all_ws :
    ∀ {l acc : List Char}, pySplitAux l acc = [] →
      ∀ c ∈ l, c.isWhitespace = true
  | [], _, _, c, hc => absurd hc (List.not_mem_nil c)
  | a :: l, acc, h, c, hc => by
    unfold pySplitAux at h
    by_cases hw : a.isWhitespace
    · rw [if_pos hw] at h
      rcases List.mem_cons.mp hc with rfl | hcl
      · exact hw
      · by_cases ha : acc.isEmpty
        · rw [if_pos ha] at h
          exact pySplitAux_eq_nil_all_ws h c hcl
        · rw [if_neg ha] at h
          cases h
    · rw [if_neg hw] at h
      exact absurd h (pySplitAux_ne_nil (List.cons_ne_nil a acc))

theorem pySplit_ne_nil {l : Str} {c : Char} (hc : c ∈ l)
    (hw : c.isWhitespace = false) : pySplit l ≠ [] := by
  intro h
  rw [pySplitAux_eq_nil_all_ws h c hc] at hw
  cases hw

/-- C1: whenever the first preformatted block of the document is `T`, the
extractor returns (without fault, given that the selected lines have a first
column at all) exactly the first-column filenames of the lines of `T` that
pass both the timestamp-substring filter and the type-token filter, in
original document order and no others — the list the specification's own
wording (`spec_selected_names`) describes. -/
theorem extract_image_names_refines_spec (parse : Str → Soup) (html : Str)
    (types : List Str) (dt T : Str)
    (hpre : (parse html).preBlocks.head? = some T)
    (hcol : ∀ l ∈ (T.splitOn '\n').filter (line_matches types dt),
      pySplit l ≠ []) :
    extract_image_names parse html types dt =
      .ok (spec_selected_names (T.splitOn '\n') types dt) := by
  unfold extract_image_names
  rw [hpre]
  unfold spec_selected_names
  have hsame : spec_line_matches types dt = line_matches types dt := rfl
  rw [hsame]
  apply mapExcept_ok
  intro a ha
  have hne := hcol a ha
  unfold first_column
  cases hs : pySplit a with
  | nil => exact absurd hs hne
  | cons t ts => simp

theorem extract_image_names_refines_spec_witness :
    extract_image_names
        (fun _ =>
          ⟨[pystr "20240802_0110_HMIIC.jpg 2024-08-02 01:10\n20240802_0110_HMIIF.jpg 2024-08-02 01:10\n20240801_0000_HMIIC.jpg 2024-08-01 00:00"]⟩)
        (pystr "<listing>") [pystr "HMIIC"] (pystr "2024-08-02 01:10") =
      .ok (spec_selected_names
        ((pystr "20240802_0110_HMIIC.jpg 2024-08-02 01:10\n20240802_0110_HMIIF.jpg 2024-08-02 01:10\n20240801_0000_HMIIC.jpg 2024-08-01 00:00").splitOn '\n')
        [pystr "HMIIC"] (pystr "2024-08-02 01:10")) :=
  extract_image_names_refines_spec
    (fun _ =>
      ⟨[pystr "20240802_0110_HMIIC.jpg 2024-08-02 01:10\n20240802_0110_HMIIF.jpg 2024-08-02 01:10\n20240801_0000_HMIIC.jpg 2024-08-01 00:00"]⟩)
    (pystr "<listing>") [pystr "HMIIC"] (pystr "2024-08-02 01:10") _ rfl
    (by decide)

/-- C10: as long as the requested timestamp has at least one non-whitespace
character, the `line.split()[0]` indexing inside the extractor is always in
bounds: every line passing the substring filter then contains a
non-whitespace character, so `IndexError` is never raised. -/
theorem extract_image_names_no_index_fault (parse : Str → Soup) (html : Str)
    (types : List Str) (dt : Str)
    (h : ∃ c ∈ dt, c.isWhitespace = false) :
    extract_image_names parse html types dt ≠ .error .indexError := by
  obtain ⟨c, hc, hcw⟩ := h
  unfold extract_image_names
  cases hp : (parse html).preBlocks with
  | nil => simp
  | cons p ps =>
    simp only [List.head?]
    intro hcontra
    obtain ⟨a, ha, hfa⟩ := mapExcept_error hcontra
    have hm : line_matches types dt a = true := List.of_mem_filter ha
    have hsub : pyContainsSub dt a = true := by
      unfold line_matches at hm
      exact (Bool.and_eq_true _ _ |>.mp hm).1
    have hne : pySplit a ≠ [] := pySplit_ne_nil (pyContainsSub_mem hc hsub) hcw
    unfold first_column at hfa
    cases hs : pySplit a with
    | nil => exact hne hs
    | cons t ts => rw [hs] at hfa; cases hfa

theorem extract_image_names_no_index_fault_witness :
    (∃ c ∈ pystr "2024-08-02 01:10", c.isWhitespace = false) ∧
      extract_image_names (fun _ => ⟨[pystr " \n "]⟩) (pystr "<listing>")
        [pystr "HMIIC"] (pystr "2024-08-02 01:10") ≠ .error .indexError :=
  ⟨by decide,
   extract_image_names_no_index_fault (fun _ => ⟨[pystr " \n "]⟩)
     (pystr "<listing>") [pystr "HMIIC"] (pystr "2024-08-02 01:10")
     (by decide)⟩

theorem download_image_characterize (env : Env) (u p : Str) (st : PipeState) :
    ∃ fl lg,
      download_image env u p st =
        ⟨st.fs, st.files ++ fl, st.attempts ++ [u], st.logs ++ lg,
          st.invoked⟩ ∧
      (download_failed env u p = true →
        .errorFetchImage u ∈ lg ∨ .errorSavingImage p ∈ lg) := by
  unfold download_image download_failed
  cases hn : env.net u with
  | transportError =>
    refine ⟨[], [.errorFetchImage u], ?_, fun _ => Or.inl (by simp)⟩
    simp
  | response s b =>
    by_cases hs : is_error_status s = true
    · refine ⟨[], [.errorFetchImage u], ?_, fun _ => Or.inl (by simp)⟩
      simp [hs]
    · by_cases hw : env.writeOk p = true
      · refine ⟨[(p, b)], [.infoImageSaved p], ?_, fun hfail => ?_⟩
        · simp [hs, hw]
        · simp [hs, hw] at hfail
      · refine ⟨[], [.errorSavingImage p], ?_, fun _ => Or.inr (by simp)⟩
        simp [hs, hw]

theorem download_loop_characterize (env : Env) (ub fp : Str) :
    ∀ (names : List Str) (st : PipeState),
      ∃ fl lg,
        names.foldl
            (fun s name =>
              download_image env (ub ++ '/' :: name) (pathJoin fp name) s)
            st =
          ⟨st.fs, st.files ++ fl,
            st.attempts ++ names.map (fun n => ub ++ '/' :: n),
            st.logs ++ lg, st.invoked⟩ ∧
        ∀ n ∈ names,
          download_failed env (ub ++ '/' :: n) (pathJoin fp n) = true →
            .errorFetchImage (ub ++ '/' :: n) ∈ lg ∨
              .errorSavingImage (pathJoin fp n) ∈ lg
  | [], st => ⟨[], [], by simp, fun n hn => absurd hn (List.not_mem_nil n)⟩
  | m :: names, st => by
    obtain ⟨fl1, lg1, h1, herr1⟩ :=
      download_image_characterize env (ub ++ '/' :: m) (pathJoin fp m) st
    obtain ⟨fl2, lg2, h2, herr2⟩ :=
      download_loop_characterize env ub fp names
        ⟨st.fs, st.files ++ fl1, st.attempts ++ [ub ++ '/' :: m],
          st.logs ++ lg1, st.invoked⟩
    refine ⟨fl1 ++ fl2, lg1 ++ lg2, ?_, ?_⟩
    · rw [List.foldl_cons, h1, h2]
      simp
    · intro n hn hfail
      rcases List.mem_cons.mp hn with rfl | hn'
      · rcases herr1 hfail with h | h
        · exact Or.inl (List.mem_append_left lg2 h)
        · exact Or.inr (List.mem_append_left lg2 h)
      · rcases herr2 n hn' hfail with h | h
        · exact Or.inl (List.mem_append_right lg1 h)
        · exact Or.inr (List.mem_append_right lg1 h)

theorem create_folder_if_not_exists_ok (fs : List Str) (p : Str) :
    ∃ fs' lg, create_folder_if_not_exists fs p = .ok (fs', lg) := by
  unfold create_folder_if_not_exists makedirs
  by_cases hp : p ∈ fs
  · exact ⟨fs, [], by rw [if_pos hp]⟩
  · exact ⟨p :: fs, [.infoCreatedFolder p], by rw [if_neg hp, if_neg hp]⟩

/-- C7: with well-formed parameters, `download_images` attempts every
filename of the sequence exactly once, in order, whatever failures occur
(the loop never aborts and never retries), and each per-file failure —
transport error, 4xx/5xx status, or filesystem write failure — leaves an
error log entry naming that file's URL or destination path. -/
theorem download_images_per_file_resilience (env : Env) (st : PipeState)
    (ub : Str) (names : List Str) (b f sf : Str)
    (hub : ub ≠ []) (hnames : names ≠ [])
    (hfp : pathJoin (pathJoin b f) sf ≠ []) :
    ∃ st',
      download_images env st ⟨some ub, some names, some b, some f, some sf⟩ =
        .ok st' ∧
      st'.attempts = st.attempts ++ names.map (fun n => ub ++ '/' :: n) ∧
      ∀ n ∈ names,
        download_failed env (ub ++ '/' :: n)
            (pathJoin (pathJoin (pathJoin b f) sf) n) = true →
          .errorFetchImage (ub ++ '/' :: n) ∈ st'.logs ∨
            .errorSavingImage (pathJoin (pathJoin (pathJoin b f) sf) n) ∈
              st'.logs := by
  obtain ⟨fs', lg, hcf⟩ :=
    create_folder_if_not_exists_ok st.fs (pathJoin (pathJoin b f) sf)
  obtain ⟨fl, lg2, hloop, herr⟩ :=
    download_loop_characterize env ub (pathJoin (pathJoin b f) sf) names
      ⟨fs', st.files, st.attempts, st.logs ++ lg, st.invoked⟩
  refine ⟨⟨fs', st.files ++ fl,
      st.attempts ++ names.map (fun n => ub ++ '/' :: n),
      (st.logs ++ lg) ++ lg2, st.invoked⟩, ?_, rfl, ?_⟩
  · unfold download_images
    dsimp only [Option.getD_some]
    rw [if_neg (by simp [hub, hnames, hfp]), hcf]
    dsimp only
    rw [hloop]
  · intro n hn hfail
    rcases herr n hn hfail with h | h
    · exact Or.inl (List.mem_append_right (st.logs ++ lg) h)
    · exact Or.inr (List.mem_append_right (st.logs ++ lg) h)

theorem download_images_per_file_resilience_witness :
    ∃ st',
      download_images
          ⟨fun u => if u = pystr "http://u/a.jpg" then .transportError
            else .response 200 (pystr "B"),
           fun _ => ⟨[]⟩,
           fun p => decide (p ≠ pystr "images/imagesSDO/2024-08-02/01-10/b.jpg")⟩
          initState
          ⟨some (pystr "http://u"), some [pystr "a.jpg", pystr "b.jpg", pystr "c.jpg"],
            some BASE_IMAGE_DIR, some (pystr "2024-08-02"),
            some (pystr "01-10")⟩ =
        .ok st' ∧
      st'.attempts = initState.attempts ++
        [pystr "a.jpg", pystr "b.jpg", pystr "c.jpg"].map
          (fun n => pystr "http://u" ++ '/' :: n) ∧
      ∀ n ∈ [pystr "a.jpg", pystr "b.jpg", pystr "c.jpg"],
        download_failed
            ⟨fun u => if u = pystr "http://u/a.jpg" then .transportError
              else .response 200 (pystr "B"),
             fun _ => ⟨[]⟩,
             fun p => decide (p ≠ pystr "images/imagesSDO/2024-08-02/01-10/b.jpg")⟩
            (pystr "http://u" ++ '/' :: n)
            (pathJoin (pathJoin (pathJoin BASE_IMAGE_DIR (pystr "2024-08-02"))
              (pystr "01-10")) n) = true →
          .errorFetchImage (pystr "http://u" ++ '/' :: n) ∈ st'.logs ∨
            .errorSavingImage
                (pathJoin (pathJoin (pathJoin BASE_IMAGE_DIR
                  (pystr "2024-08-02")) (pystr "01-10")) n) ∈
              st'.logs :=
  download_images_per_file_resilience
    ⟨fun u => if u = pystr "http://u/a.jpg" then .transportError
      else .response 200 (pystr "B"),
     fun _ => ⟨[]⟩,
     fun p => decide (p ≠ pystr "images/imagesSDO/2024-08-02/01-10/b.jpg")⟩
    initState (pystr "http://u") [pystr "a.jpg", pystr "b.jpg", pystr "c.jpg"]
    BASE_IMAGE_DIR (pystr "2024-08-02") (pystr "01-10")
    (by decide) (by decide) (by decide)

theorem fetch_html_content_none {net : Str → NetResult} {url : Str}
    (h : (fetch_html_content net url).1 = none) :
    fetch_html_content net url = (none, [.errorFetchHtml url]) := by
  unfold fetch_html_content at h ⊢
  cases hn : net url with
  | transportError => rfl
  | response s b =>
    rw [hn] at h
    by_cases hs : is_error_status s = true
    · simp [hs]
    · simp [hs] at h

/-- C8: when the listing fetch fails (e.g. a 500 response: the fetcher
returns `None`), or when the extractor returns an empty filename sequence,
`main` ends with a logged message, zero download attempts, zero files, and
the downloader stage never invoked. -/
theorem main_aborts_without_downloader (env : Env) (types : List Str)
    (dt d : Str) (rest : List Str) (hsplit : pySplit dt = d :: rest) :
    ((fetch_html_content env.net (url_base_of_date d)).1 = none →
      main' env types dt =
        .ok ⟨[], [], [], [.errorFetchHtml (url_base_of_date d)], false⟩) ∧
    (∀ body, env.net (url_base_of_date d) = .response 200 body → body ≠ [] →
      extract_image_names env.parse body types dt = .ok [] →
      main' env types dt = .ok ⟨[], [], [], [.infoNoImagesFound], false⟩) := by
  constructor
  · intro h
    have hfetch := fetch_html_content_none h
    unfold main'
    rw [hsplit]
    dsimp only
    rw [hfetch]
  · intro body hnet hbody hext
    have hs : is_error_status 200 = false := by decide
    have hfetch : fetch_html_content env.net (url_base_of_date d) =
        (some body, []) := by
      simp [fetch_html_content, hnet, hs]
    unfold main'
    rw [hsplit]
    dsimp only
    rw [hfetch]
    dsimp only
    rw [if_neg hbody, hext]
    rfl

theorem main_aborts_without_downloader_witness :
    main' ⟨fun _ => .response 500 (pystr "oops"), fun _ => ⟨[]⟩, fun _ => true⟩
        [pystr "HMIIC"] (pystr "2024-08-02 01:10") =
      .ok ⟨[], [], [],
        [.errorFetchHtml (url_base_of_date (pystr "2024-08-02"))], false⟩ ∧
    main' ⟨fun _ => .response 200 (pystr "<pre>none</pre>"),
        fun _ => ⟨[pystr "nothing here"]⟩, fun _ => true⟩
        [pystr "HMIIC"] (pystr "2024-08-02 01:10") =
      .ok ⟨[], [], [], [.infoNoImagesFound], false⟩ :=
  ⟨(main_aborts_without_downloader
      ⟨fun _ => .response 500 (pystr "oops"), fun _ => ⟨[]⟩, fun _ => true⟩
      [pystr "HMIIC"] (pystr "2024-08-02 01:10") (pystr "2024-08-02")
      [pystr "01:10"] (by decide)).1 (by decide),
   (main_aborts_without_downloader
      ⟨fun _ => .response 200 (pystr "<pre>none</pre>"),
        fun _ => ⟨[pystr "nothing here"]⟩, fun _ => true⟩
      [pystr "HMIIC"] (pystr "2024-08-02 01:10") (pystr "2024-08-02")
      [pystr "01:10"] (by decide)).2 (pystr "<pre>none</pre>") rfl
      (by decide) (by decide)⟩

theorem digit_ne {c x : Char} (h : c.isDigit = true) (hx : x.isDigit = false) :
    c ≠ x := by
  intro he
  rw [he, hx] at h
  cases h

theorem digit_not_ws {c : Char} (h : c.isDigit = true) :
    c.isWhitespace = false := by
  by_cases h1 : c = ' '
  · subst h1; exact absurd h (by decide)
  by_cases h2 : c = '\t'
  · subst h2; exact absurd h (by decide)
  by_cases h3 : c = '\x0d'
  · subst h3; exact absurd h (by decide)
  by_cases h4 : c = '\n'
  · subst h4; exact absurd h (by decide)
  simp [Char.isWhitespace, h1, h2, h3, h4]

theorem pySplitAux_append_no_ws :
    ∀ (d : List Char) (acc r : List Char),
      (∀ c ∈ d, c.isWhitespace = false) →
      pySplitAux (d ++ r) acc = pySplitAux r (d.reverse ++ acc)
  | [], acc, r, _ => rfl
  | c :: cs, acc, r, h => by
    have hc : c.isWhitespace = false := h c (List.mem_cons_self c cs)
    have ih := pySplitAux_append_no_ws cs (c :: acc) r
      (fun x hx => h x (List.mem_cons_of_mem c hx))
    rw [List.cons_append, pySplitAux, hc]
    simp only [Bool.false_eq_true, if_false, ih, List.reverse_cons,
      List.append_assoc, List.singleton_append]

theorem pySplit_one_field (t : Str) (ht : t ≠ [])
    (htw : ∀ c ∈ t, c.isWhitespace = false) : pySplit t = [t] := by
  unfold pySplit
  have h := pySplitAux_append_no_ws t [] [] htw
  rw [List.append_nil] at h
  rw [h]
  unfold pySplitAux
  rw [if_neg (by simpa using ht)]
  simp

theorem pySplit_two_fields (d t : Str) (hd : d ≠ []) (ht : t ≠ [])
    (hdw : ∀ c ∈ d, c.isWhitespace = false)
    (htw : ∀ c ∈ t, c.isWhitespace = false) :
    pySplit (d ++ ' ' :: t) = [d, t] := by
  unfold pySplit
  rw [pySplitAux_append_no_ws d [] (' ' :: t) hdw, List.append_nil]
  unfold pySplitAux
  rw [if_pos (by decide), if_neg (by simpa using hd)]
  rw [List.reverse_reverse]
  have := pySplit_one_field t ht htw
  unfold pySplit at this
  rw [this]

theorem pathJoin_sep (a b : Str) (hb : b.head? ≠ some '/') (ha : a ≠ [])
    (hla : a.getLast? ≠ some '/') : pathJoin a b = a ++ '/' :: b := by
  unfold pathJoin
  rw [if_neg hb, if_neg (by rintro (h | h); exacts [ha h, hla h])]

theorem download_images_single_success (env : Env) (ub n b f sf body : Str)
    (hub : ub ≠ []) (hfp : pathJoin (pathJoin b f) sf ≠ [])
    (hnet : env.net (ub ++ '/' :: n) = .response 200 body)
    (hwr : env.writeOk (pathJoin (pathJoin (pathJoin b f) sf) n) = true) :
    ∃ st',
      download_images env initState
          ⟨some ub, some [n], some b, some f, some sf⟩ = .ok st' ∧
      st'.files.map Prod.fst = [pathJoin (pathJoin (pathJoin b f) sf) n] := by
  have hcf : create_folder_if_not_exists initState.fs
      (pathJoin (pathJoin b f) sf) =
      .ok ([pathJoin (pathJoin b f) sf],
        [.infoCreatedFolder (pathJoin (pathJoin b f) sf)]) := by
    simp [create_folder_if_not_exists, makedirs, initState]
  have h200 : is_error_status 200 = false := by decide
  unfold download_images
  dsimp only [Option.getD_some]
  rw [if_neg (by simp [hub, hfp]), hcf]
  dsimp only
  rw [List.foldl_cons, List.foldl_nil]
  unfold download_image
  rw [hnet]
  simp only [h200, Bool.false_eq_true, if_false, hwr, if_true]
  exact ⟨_, rfl, by simp [initState]⟩

/-- C9 (amended: the selected filename must not itself begin with `'/'`,
since `os.path.join` then discards the folder components): for a timestamp
of the form `YYYY-MM-DD HH:MM`, the destination path of a downloaded file
is exactly `images/imagesSDO/<YYYY-MM-DD>/<HH-MM>/<filename>` — the fixed
base directory, then the date part of the timestamp unchanged, then the
time part with the colon replaced by a dash, then the filename. -/
theorem download_destination_path
    (y1 y2 y3 y4 m1 m2 d1 d2 h1 h2 n1 n2 : Char)
    (hy1 : y1.isDigit = true) (hy2 : y2.isDigit = true)
    (hy3 : y3.isDigit = true) (hy4 : y4.isDigit = true)
    (hm1 : m1.isDigit = true) (hm2 : m2.isDigit = true)
    (hd1 : d1.isDigit = true) (hd2 : d2.isDigit = true)
    (hh1 : h1.isDigit = true) (hh2 : h2.isDigit = true)
    (hn1 : n1.isDigit = true) (hn2 : n2.isDigit = true)
    (name body ub : Str) (hub : ub ≠ []) (hname : name.head? ≠ some '/')
    (env : Env) (hnet : ∀ u, env.net u = .response 200 body)
    (hwr : ∀ p, env.writeOk p = true) :
    ∃ params,
      main_download_params ub [name]
          ([y1, y2, y3, y4, '-', m1, m2, '-', d1, d2] ++
            ' ' :: [h1, h2, ':', n1, n2]) = .ok params ∧
      ∃ st', download_images env initState params = .ok st' ∧
        st'.files.map Prod.fst =
          [BASE_IMAGE_DIR ++
            '/' :: [y1, y2, y3, y4, '-', m1, m2, '-', d1, d2] ++
            '/' :: [h1, h2, '-', n1, n2] ++ '/' :: name] := by
  have hslash : Char.isDigit '/' = false := by decide
  have hcolon : Char.isDigit ':' = false := by decide
  have hdw : ∀ c ∈ [y1, y2, y3, y4, '-', m1, m2, '-', d1, d2],
      c.isWhitespace = false := by
    intro c hc
    simp only [List.mem_cons, List.not_mem_nil, or_false] at hc
    rcases hc with rfl | rfl | rfl | rfl | rfl | rfl | rfl | rfl | rfl | rfl
    exacts [digit_not_ws hy1, digit_not_ws hy2, digit_not_ws hy3,
      digit_not_ws hy4, by decide, digit_not_ws hm1, digit_not_ws hm2,
      by decide, digit_not_ws hd1, digit_not_ws hd2]
  have htw : ∀ c ∈ [h1, h2, ':', n1, n2], c.isWhitespace = false := by
    intro c hc
    simp only [List.mem_cons, List.not_mem_nil, or_false] at hc
    rcases hc with rfl | rfl | rfl | rfl | rfl
    exacts [digit_not_ws hh1, digit_not_ws hh2, by decide,
      digit_not_ws hn1, digit_not_ws hn2]
  have hsplit := pySplit_two_fields [y1, y2, y3, y4, '-', m1, m2, '-', d1, d2]
    [h1, h2, ':', n1, n2] (by simp) (by simp) hdw htw
  have hmap : [h1, h2, ':', n1, n2].map (fun c => if c = ':' then '-' else c) =
      [h1, h2, '-', n1, n2] := by
    simp [digit_ne hh1 hcolon, digit_ne hh2 hcolon, digit_ne hn1 hcolon,
      digit_ne hn2 hcolon]
  have hld : ('/' :: [y1, y2, y3, y4, '-', m1, m2, '-', d1, d2]).getLast? =
      some d2 := by
    simp [List.getLast?_cons_cons]
  have hlt : ('/' :: [h1, h2, '-', n1, n2]).getLast? = some n2 := by
    simp [List.getLast?_cons_cons]
  have hj1 : pathJoin BASE_IMAGE_DIR [y1, y2, y3, y4, '-', m1, m2, '-', d1, d2]
      = BASE_IMAGE_DIR ++ '/' :: [y1, y2, y3, y4, '-', m1, m2, '-', d1, d2] :=
    pathJoin_sep _ _
      (fun h => digit_ne hy1 hslash (Option.some.inj h)) (by decide)
      (by decide)
  have hj2 : pathJoin
        (BASE_IMAGE_DIR ++ '/' :: [y1, y2, y3, y4, '-', m1, m2, '-', d1, d2])
        [h1, h2, '-', n1, n2] =
      (BASE_IMAGE_DIR ++ '/' :: [y1, y2, y3, y4, '-', m1, m2, '-', d1, d2]) ++
        '/' :: [h1, h2, '-', n1, n2] :=
    pathJoin_sep _ _
      (fun h => digit_ne hh1 hslash (Option.some.inj h)) (by simp)
      (by rw [List.getLast?_append, hld]; intro h
          exact digit_ne hd2 hslash (Option.some.inj h))
  have hj3 : pathJoin
        ((BASE_IMAGE_DIR ++ '/' :: [y1, y2, y3, y4, '-', m1, m2, '-', d1, d2])
          ++ '/' :: [h1, h2, '-', n1, n2]) name =
      ((BASE_IMAGE_DIR ++ '/' :: [y1, y2, y3, y4, '-', m1, m2, '-', d1, d2])
        ++ '/' :: [h1, h2, '-', n1, n2]) ++ '/' :: name :=
    pathJoin_sep _ _ hname (by simp)
      (by rw [List.getLast?_append, hlt]; intro h
          exact digit_ne hn2 hslash (Option.some.inj h))
  refine ⟨⟨some ub, some [name], some BASE_IMAGE_DIR,
    some [y1, y2, y3, y4, '-', m1, m2, '-', d1, d2],
    some [h1, h2, '-', n1, n2]⟩, ?_, ?_⟩
  · unfold main_download_params
    rw [hsplit]
    dsimp only
    rw [hmap]
  · obtain ⟨st', hok, hfiles⟩ := download_images_single_success env ub name
      BASE_IMAGE_DIR [y1, y2, y3, y4, '-', m1, m2, '-', d1, d2]
      [h1, h2, '-', n1, n2] body hub
      (by rw [hj1, hj2]; simp) (hnet _) (hwr _)
    refine ⟨st', hok, ?_⟩
    rw [hfiles, hj1, hj2, hj3]

theorem download_destination_path_witness :
    ∃ params,
      main_download_params (pystr "http://u") [pystr "a.jpg"]
          (['2', '0', '2', '4', '-', '0', '8', '-', '0', '2'] ++
            ' ' :: ['0', '1', ':', '1', '0']) = .ok params ∧
      ∃ st',
        download_images
            ⟨fun _ => .response 200 (pystr "B"), fun _ => ⟨[]⟩, fun _ => true⟩
            initState params = .ok st' ∧
        st'.files.map Prod.fst =
          [BASE_IMAGE_DIR ++
            '/' :: ['2', '0', '2', '4', '-', '0', '8', '-', '0', '2'] ++
            '/' :: ['0', '1', '-', '1', '0'] ++ '/' :: pystr "a.jpg"] :=
  download_destination_path '2' '0' '2' '4' '0' '8' '0' '2' '0' '1' '1' '0'
    (by decide) (by decide) (by decide) (by decide) (by decide) (by decide)
    (by decide) (by decide) (by decide) (by decide) (by decide) (by decide)
    (pystr "a.jpg") (pystr "B") (pystr "http://u") (by decide) (by decide)
    ⟨fun _ => .response 200 (pystr "B"), fun _ => ⟨[]⟩, fun _ => true⟩
    (fun _ => rfl) (fun _ => rfl)

/-- C9 counterexample: for the timestamp `"2024-08-02 01:10"` a filename
beginning with `'/'` can be selected (here `"/a.jpg"`, via type token
`"/a"`), and `os.path.join` then discards the folder components entirely:
the file is written to `/a.jpg`, not to the claimed
`images/imagesSDO/2024-08-02/01-10//a.jpg`. -/
theorem main_leading_slash_filename_escapes_layout :
    (main' ⟨fun _ => .response 200 (pystr "B"),
        fun _ => ⟨[pystr "/a.jpg x 2024-08-02 01:10"]⟩, fun _ => true⟩
      [pystr "/a"] (pystr "2024-08-02 01:10")).map
        (fun r => r.files.map Prod.fst) = .ok [pystr "/a.jpg"] ∧
    pystr "/a.jpg" ≠ pystr "images/imagesSDO/2024-08-02/01-10//a.jpg" := by
  refine ⟨by decide, by decide⟩
